import Mathlib

/-!
Verification development for the Soul-Bot trading dashboard server.

The definitions below are a shallow embedding of the JavaScript source:

* `src/web/server/modules/tradeExecutor.js` — the dashboard server module:
  the global `state` object, the profit-lock REST endpoints, the
  `start_trading` / `stop_trading` / `disconnect_wallet` socket handlers,
  `saveWalletState` / `loadWalletState`, `startMarketDataTrading`,
  `updatePortfolio` and `sendInitialState`.
* `src/unnamed/part_000` — the `MLBridge` adaptive scorer
  (`predict`, `learnFromTrade`, `train`, feature engineering helpers).
* `src/web/server/modules/dexConnector.js` — `getTokenPrice` (price
  resolution with caching and fallback) and `isTokenTradeable` (round-trip
  tradeability check).

Money and probabilities are modelled with exact rationals (`ℚ`); the
JavaScript stores some of them as `toFixed` strings and parses them back
with `parseFloat`, which we model as the identity on the rational value.
Timestamps (`Date.now()`) are explicit `ℕ` parameters.  Randomness
(`Math.random()`) is an explicit stream `ℕ → ℚ` of drawn values, and the
transcendental functions `Math.log10` / `Math.sqrt` are parameters of a
`MathEnv`, since the claims under study never depend on their values.
-/

namespace SoulBot

/-- `state.portfolio` of tradeExecutor.js: note that it carries BOTH a
`value` field and a `balance` field, each initialised to 50.00. -/
structure Portfolio where
  value : ℚ
  totalPnL : ℚ
  dailyReturn : ℚ
  mlAccuracy : ℚ
  balance : ℚ
  deriving Repr, DecidableEq

/-- One entry of `state.profitLock.history` (pushed by `updatePortfolio`). -/
structure LockEntry where
  tradeId : String
  profit : ℚ
  lockAmount : ℚ
  timestamp : ℕ
  deriving Repr, DecidableEq

/-- `state.profitLock` of tradeExecutor.js. -/
structure ProfitLock where
  enabled : Bool
  percentage : ℚ
  lockedBalance : ℚ
  totalLocked : ℚ
  lastLockTime : Option ℕ
  history : List LockEntry
  deriving Repr, DecidableEq

/-- `state.mlStats` of tradeExecutor.js. -/
structure MlStats where
  predictions : ℕ
  correctPredictions : ℕ
  accuracy : ℚ
  deriving Repr, DecidableEq

/-- A trade record as consumed by `updatePortfolio` and stored in
`state.trades`.  The JavaScript trade object carries many more display
fields (symbols, route, exchanges, ...); only the fields the ledger and
persistence logic read are modelled.  `profit` is stored by the source as
a `toFixed(2)` string and read back via `parseFloat`. -/
structure Trade where
  id : String
  timestamp : ℕ
  profit : ℚ
  success : Bool
  deriving Repr, DecidableEq

/-- `state.tradingControl.mode`: the string `'demo'` or `'live'`. -/
inductive Mode where
  | demo
  | live
  deriving Repr, DecidableEq

/-- The part of `state.tradingControl` the session logic reads and
writes.  In the source `startTime` is initially `null`; `Date.now() - null`
evaluates like `Date.now() - 0`, so the unset value is modelled as `0`. -/
structure TradingControl where
  isRunning : Bool
  mode : Mode
  startTime : ℕ
  deriving Repr, DecidableEq

/-- `state.historicalData` of tradeExecutor.js. -/
structure HistoricalData where
  timestamps : List ℕ
  values : List ℚ
  profits : List ℚ
  deriving Repr, DecidableEq

/-- The slice of the global `state` object that the session, ledger and
persistence logic of tradeExecutor.js mutates.  `liveWalletAddress` is
`state.liveTrading.walletAddress`. -/
structure ServerState where
  trades : List Trade
  portfolio : Portfolio
  tradingControl : TradingControl
  mlStats : MlStats
  profitLock : ProfitLock
  liveWalletAddress : Option String
  historicalData : HistoricalData
  deriving Repr, DecidableEq

/-- The initial `state` object literal of tradeExecutor.js (lines 319-384):
demo balance 50.00, profit lock enabled at 20%, ML accuracy 85, not
running, demo mode, no live wallet. -/
def initialState : ServerState :=
  { trades := []
    portfolio :=
      { value := 50, totalPnL := 0, dailyReturn := 0, mlAccuracy := 85, balance := 50 }
    tradingControl := { isRunning := false, mode := Mode.demo, startTime := 0 }
    mlStats := { predictions := 0, correctPredictions := 0, accuracy := 85 }
    profitLock :=
      { enabled := true, percentage := 20, lockedBalance := 0, totalLocked := 0
        lastLockTime := none, history := [] }
    liveWalletAddress := none
    historicalData := { timestamps := [], values := [], profits := [] } }

/-- `updatePortfolio(trade)` of tradeExecutor.js (lines 2121-2176):
adds the trade profit to `portfolio.value` and `portfolio.totalPnL`
(never to `portfolio.balance`), recomputes the daily return, and, when the
profit lock is enabled and the profit positive, skims
`profit * percentage / 100` into `lockedBalance` and `totalLocked` and
appends a history entry.  The skim is not deducted from the portfolio. -/
def updatePortfolio (now : ℕ) (trade : Trade) (s : ServerState) : ServerState :=
  let profitAmount := trade.profit
  let p :=
    { s.portfolio with
      value := s.portfolio.value + profitAmount
      totalPnL := s.portfolio.totalPnL + profitAmount }
  let daysPassed : ℚ := ((now : ℚ) - (s.tradingControl.startTime : ℚ)) / (24 * 60 * 60 * 1000)
  let p :=
    if 0 < daysPassed then
      { p with dailyReturn := p.totalPnL / (daysPassed * 100) * 100 }
    else p
  let pl :=
    if s.profitLock.enabled = true ∧ 0 < profitAmount then
      let lockAmount := profitAmount * s.profitLock.percentage / 100
      { s.profitLock with
        lockedBalance := s.profitLock.lockedBalance + lockAmount
        totalLocked := s.profitLock.totalLocked + lockAmount
        lastLockTime := some now
        history := s.profitLock.history ++
          [{ tradeId := trade.id, profit := profitAmount, lockAmount := lockAmount
             timestamp := now }] }
    else s.profitLock
  { s with portfolio := p, profitLock := pl }

/-- Response of `POST /api/profit-lock/withdraw`. -/
inductive WithdrawResult where
  | invalidAmount
  | noLockedProfits
  | withdrawn (amount : ℚ)
  deriving Repr, DecidableEq

/-- `POST /api/profit-lock/withdraw` of tradeExecutor.js (lines 524-576):
rejects a non-positive requested amount; withdraws
`min(requested, lockedBalance)` when that is positive, moving it out of
`profitLock.lockedBalance` and into `portfolio.balance` (NOT
`portfolio.value`); otherwise rejects with no state change. -/
def profitLockWithdraw (amount : ℚ) (s : ServerState) : ServerState × WithdrawResult :=
  if amount ≤ 0 then (s, WithdrawResult.invalidAmount)
  else
    let withdrawAmount := min amount s.profitLock.lockedBalance
    if withdrawAmount ≤ 0 then (s, WithdrawResult.noLockedProfits)
    else
      ({ s with
         profitLock :=
           { s.profitLock with lockedBalance := s.profitLock.lockedBalance - withdrawAmount }
         portfolio := { s.portfolio with balance := s.portfolio.balance + withdrawAmount } },
       WithdrawResult.withdrawn withdrawAmount)

/-- Response of `POST /api/profit-lock/configure`. -/
inductive ConfigureResult where
  | ok
  | percentageOutOfRange
  deriving Repr, DecidableEq

/-- `POST /api/profit-lock/configure` of tradeExecutor.js (lines 481-522):
applies a provided `enabled` value first; then validates a provided
`percentage` against [0, 100], returning a 400 error if out of range —
note the `enabled` update has already happened at that point. -/
def profitLockConfigure (percentage : Option ℚ) (enabled : Option Bool)
    (s : ServerState) : ServerState × ConfigureResult :=
  let s :=
    match enabled with
    | some e => { s with profitLock := { s.profitLock with enabled := e } }
    | none => s
  match percentage with
  | some p =>
      if p < 0 ∨ 100 < p then (s, ConfigureResult.percentageOutOfRange)
      else ({ s with profitLock := { s.profitLock with percentage := p } }, ConfigureResult.ok)
  | none => (s, ConfigureResult.ok)

/-- The `balance` field of the `portfolio` payload that
`sendInitialState` (tradeExecutor.js lines 939-948) emits to a connecting
viewer: it is `state.portfolio.value`, not `state.portfolio.balance`.
`updatePortfolio` broadcasts the same field. -/
def sendInitialStateBalance (s : ServerState) : ℚ :=
  s.portfolio.value

/-- The wallet-keyed snapshot object written by `saveWalletState`
(tradeExecutor.js lines 1382-1416). -/
structure WalletSnapshot where
  portfolio : Portfolio
  trades : List Trade
  profitLock : ProfitLock
  mlStats : MlStats
  historicalData : HistoricalData
  savedAt : ℕ
  deriving Repr, DecidableEq

/-- The on-disk wallet-state directory: one JSON file per wallet.  The
source keys files by the first 16 hex digits of `sha256(walletAddress)`;
the hash is modelled as the identity on the address (it is injective for
the purposes of the logic, and the store is consulted only through it). -/
abbrev WalletStore := List (String × WalletSnapshot)

/-- Lookup in the wallet store (file-exists plus read). -/
def storeLookup (store : WalletStore) (key : String) : Option WalletSnapshot :=
  (store.find? (fun kv => kv.1 = key)).map (fun kv => kv.2)

/-- Overwrite-or-create a wallet-state file (`fs.writeFileSync`):
last write wins. -/
def storeSave (store : WalletStore) (key : String) (snap : WalletSnapshot) : WalletStore :=
  (key, snap) :: store.filter (fun kv => kv.1 ≠ key)

/-- `saveWalletState(walletAddress)` of tradeExecutor.js (lines 1382-1416):
no-op for a missing address, otherwise snapshots `portfolio`, `trades`,
`profitLock`, `mlStats` and `historicalData` under the hashed address. -/
def saveWalletState (now : ℕ) (walletAddress : Option String)
    (s : ServerState) (store : WalletStore) : WalletStore :=
  match walletAddress with
  | none => store
  | some w =>
      storeSave store w
        { portfolio := s.portfolio, trades := s.trades, profitLock := s.profitLock
          mlStats := s.mlStats, historicalData := s.historicalData, savedAt := now }

/-- `loadWalletState(walletAddress)` of tradeExecutor.js (lines 1418-1449):
returns `false` (state untouched) for a missing address or file, otherwise
replaces `portfolio`, `trades`, `profitLock`, `mlStats` and
`historicalData` with the snapshot and returns `true`. -/
def loadWalletState (walletAddress : Option String) (store : WalletStore)
    (s : ServerState) : ServerState × Bool :=
  match walletAddress with
  | none => (s, false)
  | some w =>
      match storeLookup store w with
      | none => (s, false)
      | some snap =>
          ({ s with
             portfolio := snap.portfolio, trades := snap.trades
             profitLock := snap.profitLock, mlStats := snap.mlStats
             historicalData := snap.historicalData }, true)

/-- `startMarketDataTrading()` of tradeExecutor.js (lines 1652-1691):
called unconditionally at the end of the `start_trading` handler, it
resets the portfolio to the 50.00 demo values, clears the trade list, and
zeroes `profitLock.lockedBalance` and `profitLock.totalLocked` — in live
mode as well as demo mode, and AFTER any wallet snapshot has been
loaded. -/
def startMarketDataTrading (s : ServerState) : ServerState :=
  { s with
    portfolio :=
      { value := 50, totalPnL := 0, dailyReturn := 0
        mlAccuracy := s.mlStats.accuracy, balance := 50 }
    trades := []
    profitLock := { s.profitLock with lockedBalance := 0, totalLocked := 0 } }

/-- The `start_trading` socket handler of tradeExecutor.js (lines
1199-1277).  `socketWallet` is `socket.walletAddress` (the wallet the
requesting client connected, if any).  Live mode without a connected
wallet is rejected with no state change; a start while already running is
a no-op; otherwise the mode, start time, running flag and live wallet are
set, the demo branch resets the ledger and history, the live branch loads
the wallet snapshot if one exists, and finally `startMarketDataTrading`
runs (resetting the portfolio again in both modes). -/
def startTrading (now : ℕ) (mode : Mode) (socketWallet : Option String)
    (store : WalletStore) (s : ServerState) : ServerState :=
  match mode, socketWallet with
  | Mode.live, none => s
  | _, _ =>
    if s.tradingControl.isRunning then s
    else
      let s :=
        { s with
          tradingControl := { isRunning := true, mode := mode, startTime := now }
          liveWalletAddress :=
            match mode with
            | Mode.live => socketWallet
            | Mode.demo => none }
      let s :=
        match mode with
        | Mode.demo =>
          { s with
            trades := []
            portfolio :=
              { value := 50, totalPnL := 0, dailyReturn := 0
                mlAccuracy := s.mlStats.accuracy, balance := 50 }
            profitLock :=
              { s.profitLock with lockedBalance := 0, totalLocked := 0, history := [] }
            historicalData := { timestamps := [now], values := [0], profits := [0] } }
        | Mode.live =>
          let loaded := loadWalletState socketWallet store s
          if loaded.2 then loaded.1
          else if loaded.1.portfolio.value = 0 then
            { loaded.1 with portfolio := { loaded.1.portfolio with value := 0 } }
          else loaded.1
      startMarketDataTrading s

/-- The `stop_trading` socket handler of tradeExecutor.js (lines
1280-1318): no-op when not running; in live mode with a connected wallet
the state is persisted BEFORE the running flag is cleared; the live
wallet address is cleared only when stopping a demo session. -/
def stopTrading (now : ℕ) (s : ServerState) (store : WalletStore) :
    ServerState × WalletStore :=
  if s.tradingControl.isRunning = false then (s, store)
  else
    let store :=
      match s.tradingControl.mode, s.liveWalletAddress with
      | Mode.live, some w => saveWalletState now (some w) s store
      | _, _ => store
    let s := { s with tradingControl := { s.tradingControl with isRunning := false } }
    let s :=
      match s.tradingControl.mode with
      | Mode.demo => { s with liveWalletAddress := none }
      | Mode.live => s
    (s, store)

/-- The `disconnect_wallet` socket handler of tradeExecutor.js (lines
1036-1048): when the disconnecting socket owns the live wallet address,
the state is saved (only if the mode is live) and the live wallet address
is cleared — WITHOUT stopping a running session. -/
def disconnectWallet (now : ℕ) (socketWallet : Option String)
    (s : ServerState) (store : WalletStore) : ServerState × WalletStore :=
  if socketWallet = s.liveWalletAddress then
    let store :=
      match s.tradingControl.mode with
      | Mode.live => saveWalletState now socketWallet s store
      | Mode.demo => store
    ({ s with liveWalletAddress := none }, store)
  else (s, store)

/-- The externally triggered events that mutate the session, ledger and
store: the socket commands, the REST profit-lock endpoints, and a trade
being applied (the demo tick `generateAndProcessTrade` pushes the trade
and calls `updatePortfolio`; the live `trade_executed` path does the
same through `updatePortfolio`). -/
inductive Event where
  | startTrading (mode : Mode) (socketWallet : Option String)
  | stopTrading
  | applyTrade (t : Trade)
  | configureLock (percentage : Option ℚ) (enabled : Option Bool)
  | withdrawLock (amount : ℚ)
  | disconnectWallet (socketWallet : Option String)
  deriving Repr, DecidableEq

/-- The server state together with the wallet-snapshot store. -/
structure Sys where
  server : ServerState
  store : WalletStore
  deriving Repr, DecidableEq

/-- The initial system: fresh server state, empty wallet directory. -/
def initialSys : Sys :=
  { server := initialState, store := [] }

/-- One step of the session state machine: dispatch of an event at time
`now` to the corresponding handler of tradeExecutor.js. -/
def step (now : ℕ) (e : Event) (sys : Sys) : Sys :=
  match e with
  | Event.startTrading mode socketWallet =>
      { sys with server := startTrading now mode socketWallet sys.store sys.server }
  | Event.stopTrading =>
      let r := stopTrading now sys.server sys.store
      { server := r.1, store := r.2 }
  | Event.applyTrade t =>
      { sys with
        server := updatePortfolio now t { sys.server with trades := sys.server.trades ++ [t] } }
  | Event.configureLock percentage enabled =>
      { sys with server := (profitLockConfigure percentage enabled sys.server).1 }
  | Event.withdrawLock amount =>
      { sys with server := (profitLockWithdraw amount sys.server).1 }
  | Event.disconnectWallet socketWallet =>
      let r := disconnectWallet now socketWallet sys.server sys.store
      { server := r.1, store := r.2 }

/-- Run a sequence of timestamped events from a system state. -/
def run (sys : Sys) (events : List (ℕ × Event)) : Sys :=
  events.foldl (fun a e => step e.1 e.2 a) sys

/-- Recognises session-start events (the only events that reset the
profit-lock totals). -/
def isStartEvent : Event → Bool
  | Event.startTrading _ _ => true
  | _ => false

/-- The Live-session identity invariant of spec §8: a running live
session has a live wallet address. -/
def LiveInv (s : ServerState) : Prop :=
  s.tradingControl.isRunning = true → s.tradingControl.mode = Mode.live →
    s.liveWalletAddress ≠ none

/-! ### The MLBridge adaptive scorer (src/unnamed/part_000) -/

/-- The keys of `this.featureImportance` of MLBridge. -/
inductive Feature where
  | profitPercentage
  | slippage
  | liquidity
  | volume
  | volatility
  | rsi
  | macd
  | momentum
  | trendAlignment
  | timeOfDay
  deriving Repr, DecidableEq

/-- The iteration order of the `for (const feature in this.featureImportance)`
loop in `predict`: JavaScript object-key insertion order of the
constructor literal. -/
def featureOrder : List Feature :=
  [Feature.profitPercentage, Feature.slippage, Feature.liquidity, Feature.volume,
   Feature.volatility, Feature.rsi, Feature.macd, Feature.momentum,
   Feature.trendAlignment, Feature.timeOfDay]

/-- `this.tradingParams` of MLBridge (the tunable hyperparameters). -/
structure TradingParams where
  entryThreshold : ℚ
  exitThreshold : ℚ
  stopLossPercent : ℚ
  takeProfitPercent : ℚ
  maxRiskPerTrade : ℚ
  learningRate : ℚ
  regularizationStrength : ℚ
  momentumFactor : ℚ
  dropoutRate : ℚ
  optimizerType : String
  deriving Repr, DecidableEq

/-- The MLBridge instance state (the fields its methods read or write). -/
structure MLBridge where
  connected : Bool
  accuracy : ℚ
  enabled : Bool
  tradingParams : TradingParams
  correctPredictions : ℕ
  totalPredictions : ℕ
  successfulTrades : ℕ
  failedTrades : ℕ
  featureImportance : Feature → ℚ

/-- The MLBridge constructor defaults. -/
def initialMLBridge : MLBridge :=
  { connected := false
    accuracy := 85
    enabled := true
    tradingParams :=
      { entryThreshold := 0.65, exitThreshold := 0.45, stopLossPercent := 5
        takeProfitPercent := 10, maxRiskPerTrade := 2, learningRate := 0.01
        regularizationStrength := 0.001, momentumFactor := 0.9, dropoutRate := 0.2
        optimizerType := "adam" }
    correctPredictions := 0
    totalPredictions := 0
    successfulTrades := 0
    failedTrades := 0
    featureImportance := fun f =>
      match f with
      | Feature.profitPercentage => 0.35
      | Feature.slippage => 0.10
      | Feature.liquidity => 0.10
      | Feature.volume => 0.10
      | Feature.volatility => 0.05
      | Feature.rsi => 0.10
      | Feature.macd => 0.05
      | Feature.momentum => 0.05
      | Feature.trendAlignment => 0.05
      | Feature.timeOfDay => 0.05 }

/-- A stream of `Math.random()` draws (each in `[0, 1)`). -/
abbrev Rng := ℕ → ℚ

/-- Interpretation of the transcendental library functions the scorer
uses (`Math.log10`, `Math.sqrt`); their exact values never matter for the
claims under study. -/
structure MathEnv where
  log10 : ℚ → ℚ
  sqrt : ℚ → ℚ

/-- `Math.sign`, as used by `learnFromTrade`. -/
def jsSign (q : ℚ) : ℚ :=
  if 0 < q then 1 else if q < 0 then -1 else 0

/-- `tuneHyperparameters()` of MLBridge: resamples the
pseudo-hyperparameters from the random stream. -/
def tuneHyperparameters (rng : Rng) (m : MLBridge) : MLBridge :=
  { m with
    tradingParams :=
      { m.tradingParams with
        learningRate := 0.005 + rng 0 * 0.025
        regularizationStrength := 0.0005 + rng 1 * 0.002
        momentumFactor := 0.85 + rng 2 * 0.1
        dropoutRate := 0.15 + rng 3 * 0.2
        optimizerType :=
          (["adam", "sgd", "rmsprop", "adagrad"].getD (Int.floor (rng 4 * 4)).toNat
            "adam") } }

/-- `train()` of MLBridge: no-op without samples; otherwise tunes the
hyperparameters and applies a bounded random accuracy bump (capped at
97). -/
def train (rng : Rng) (m : MLBridge) : MLBridge :=
  let totalSamples := m.successfulTrades + m.failedTrades
  if totalSamples = 0 then m
  else
    let m := tuneHyperparameters rng m
    let baseAccuracy := 75 + rng 5 * 10
    let balancingImprovement := 2 + rng 6 * 3
    let hyperparameterImprovement := 1 + rng 7 * 3
    let featureEngineeringImprovement := 2 + rng 8 * 3
    { m with
      accuracy :=
        min 97 (baseAccuracy + balancingImprovement + hyperparameterImprovement +
          featureEngineeringImprovement) }

/-- The `marketTrend` input string (`'up'` / `'down'` / anything else
truthy). -/
inductive Trend where
  | up
  | down
  | neutral
  deriving Repr, DecidableEq

/-- The market-data argument of `predict`: the named feature values the
caller provided, plus the price history and market trend consumed by
`engineerFeatures`. -/
structure PredictInput where
  features : Feature → Option ℚ
  priceHistory : List ℚ
  marketTrend : Option Trend

/-- `calculateVolatility(priceHistory)`: standard deviation of
consecutive returns. -/
def calculateVolatility (env : MathEnv) (priceHistory : List ℚ) : ℚ :=
  if priceHistory.length < 2 then 0
  else
    let changes := List.zipWith (fun prev next => (next - prev) / prev)
      priceHistory priceHistory.tail
    let mean := changes.sum / (changes.length : ℚ)
    let squaredDiffs := changes.map (fun v => (v - mean) ^ 2)
    let variance := squaredDiffs.sum / (squaredDiffs.length : ℚ)
    env.sqrt variance

/-- `calculateRSI(priceHistory)`: 14-period relative strength index over
the FIRST 14 price changes (the source slices `(0, period)`). -/
def calculateRSI (priceHistory : List ℚ) : ℚ :=
  if priceHistory.length < 14 then 50
  else
    let period : ℕ := 14
    let changes := List.zipWith (fun prev next => next - prev)
      priceHistory priceHistory.tail
    let gains := changes.map (fun c => if 0 < c then c else 0)
    let losses := changes.map (fun c => if c < 0 then -c else 0)
    let avgGain := (gains.take period).sum / (period : ℚ)
    let avgLoss := (losses.take period).sum / (period : ℚ)
    if avgLoss = 0 then 100
    else
      let rs := avgGain / avgLoss
      100 - 100 / (1 + rs)

/-- `calculateMACD(priceHistory)`: difference of the simplified fast
(last 12) and slow (last 26) window averages. -/
def calculateMACD (priceHistory : List ℚ) : ℚ :=
  if priceHistory.length < 26 then 0
  else
    let fastPeriod : ℕ := 12
    let slowPeriod : ℕ := 26
    let fastEMA := (priceHistory.drop (priceHistory.length - fastPeriod)).sum / (fastPeriod : ℚ)
    let slowEMA := (priceHistory.drop (priceHistory.length - slowPeriod)).sum / (slowPeriod : ℚ)
    fastEMA - slowEMA

/-- `calculateMomentum(priceHistory)`: 5-sample relative delta. -/
def calculateMomentum (priceHistory : List ℚ) : ℚ :=
  if priceHistory.length < 5 then 0
  else
    let currentPrice := priceHistory.getD (priceHistory.length - 1) 0
    let previousPrice := priceHistory.getD (priceHistory.length - 5) 0
    (currentPrice - previousPrice) / previousPrice

/-- `engineerFeatures(data)` of MLBridge, restricted to the keys the
prediction loop reads: overrides the technical indicators when enough
price history is present, maps the market trend onto `trendAlignment`,
and defaults `profitPercentage` / `slippage` / `liquidity` / `volume` to
0 when absent.  (The `hourOfDay` / `dayOfWeek` keys it also sets are not
in `featureImportance` and so are never read; note that the `timeOfDay`
key IS in `featureImportance` but is never set here, so it contributes
only when the caller supplied it.) -/
def engineerFeatures (env : MathEnv) (d : PredictInput) : Feature → Option ℚ :=
  fun f =>
    let base := d.features f
    match f with
    | Feature.volatility =>
        if 1 < d.priceHistory.length then some (calculateVolatility env d.priceHistory)
        else base
    | Feature.momentum =>
        if 5 ≤ d.priceHistory.length then some (calculateMomentum d.priceHistory)
        else base
    | Feature.rsi =>
        if 14 ≤ d.priceHistory.length then some (calculateRSI d.priceHistory)
        else base
    | Feature.macd =>
        if 26 ≤ d.priceHistory.length then some (calculateMACD d.priceHistory)
        else base
    | Feature.trendAlignment =>
        match d.marketTrend with
        | some Trend.up => some 1
        | some Trend.down => some (-1)
        | some Trend.neutral => some 0
        | none => base
    | Feature.profitPercentage => some (base.getD 0)
    | Feature.slippage => some (base.getD 0)
    | Feature.liquidity => some (base.getD 0)
    | Feature.volume => some (base.getD 0)
    | Feature.timeOfDay => base

/-- `calculateProfitImpact`: non-linear diminishing-returns scale. -/
def calculateProfitImpact (profitPercentage : ℚ) : ℚ :=
  if 2 ≤ profitPercentage then 0.35
  else if 1.5 ≤ profitPercentage then 0.3
  else if 1 ≤ profitPercentage then 0.25
  else if 0.5 ≤ profitPercentage then 0.15
  else if 0.2 ≤ profitPercentage then 0.05
  else -0.1

/-- `calculateVolatilityImpact`: sweet-spot curve. -/
def calculateVolatilityImpact (volatility : ℚ) : ℚ :=
  if volatility < 0.005 then -0.05
  else if volatility < 0.01 then 0.05
  else if volatility < 0.03 then 0.1
  else if volatility < 0.05 then 0.05
  else -0.1

/-- `calculateTimeImpact`: time-of-day activity heuristic. -/
def calculateTimeImpact (hourOfDay : ℚ) : ℚ :=
  if 2 ≤ hourOfDay ∧ hourOfDay ≤ 5 then -0.05
  else if 12 ≤ hourOfDay ∧ hourOfDay ≤ 15 then 0.1
  else if 20 ≤ hourOfDay ∧ hourOfDay ≤ 23 then 0.05
  else 0

/-- `calculateRSIImpact`: oversold/overbought bands. -/
def calculateRSIImpact (rsi : ℚ) : ℚ :=
  if rsi < 30 then 0.15
  else if 70 < rsi then -0.15
  else 0

/-- The per-feature `impact` of the `switch` statement inside
`predict`. -/
def featureImpact (env : MathEnv) (f : Feature) (value : ℚ) : ℚ :=
  match f with
  | Feature.profitPercentage => calculateProfitImpact value
  | Feature.slippage => -(min 0.5 (value / 2))
  | Feature.liquidity => min 0.3 (env.log10 (max 1 value) / 7)
  | Feature.volume => min 0.3 (env.log10 (max 1 value) / 8)
  | Feature.volatility => calculateVolatilityImpact value
  | Feature.rsi => calculateRSIImpact value
  | Feature.macd => min 0.2 (max (-0.2) (value / 10))
  | Feature.momentum => min 0.2 (max (-0.2) (value * 2))
  | Feature.trendAlignment => value * 0.15
  | Feature.timeOfDay => calculateTimeImpact value

/-- The record `predict` returns.  The enabled branch of the source does
not set `isDisabled` (an absent field is falsy), modelled as `false`. -/
structure PredictionRecord where
  prediction : ℕ
  confidence : ℚ
  probability : ℚ
  isDisabled : Bool
  deriving Repr, DecidableEq

/-- `predict(data)` of MLBridge (part_000 lines 290-359).  The pair
returned is (the JavaScript return value, the bridge state after the
call).  When disabled: a slightly optimistic random guess tagged
`isDisabled`.  When enabled: accumulate `0.5 + Σ weight·impact` over the
known features with positive weight, clamp to `[0.05, 0.95]`, and derive
confidence from certainty and historical accuracy.  The method writes no
instance field in either branch. -/
def MLBridge.predict (env : MathEnv) (rng : Rng) (m : MLBridge)
    (data : PredictInput) : PredictionRecord × MLBridge :=
  if m.enabled = false then
    ({ prediction := if (0.4 : ℚ) < rng 0 then 1 else 0
       confidence := 0.5
       probability := rng 1 * 0.5 + 0.4
       isDisabled := true }, m)
  else
    let engineeredData := engineerFeatures env data
    let successProbability :=
      featureOrder.foldl
        (fun acc f =>
          match engineeredData f with
          | some value =>
              if 0 < m.featureImportance f then
                acc + featureImpact env f value * m.featureImportance f
              else acc
          | none => acc)
        0.5
    let successProbability := max 0.05 (min 0.95 successProbability)
    let predictionCertainty := |successProbability - 0.5| * 2
    let historicalAccuracyFactor := (if m.accuracy = 0 then 85 else m.accuracy) / 100
    let confidence := 0.5 + predictionCertainty * 0.3 + historicalAccuracyFactor * 0.2
    ({ prediction := if 0.5 < successProbability then 1 else 0
       confidence := min 0.98 confidence
       probability := successProbability
       isDisabled := false }, m)

/-- One entry of `predictionDetails.contributingFactors` consumed by
`learnFromTrade`. -/
structure ContributingFactor where
  feature : Feature
  value : ℚ
  impact : ℚ
  deriving Repr, DecidableEq

/-- The `predictionDetails` attached to a trade. -/
structure PredictionDetails where
  prediction : ℕ
  probability : ℚ
  contributingFactors : Option (List ContributingFactor)

/-- The trade object as consumed by `learnFromTrade`. -/
structure MLTrade where
  id : String
  success : Bool
  predictionDetails : Option PredictionDetails

/-- The weight-nudge loop of `learnFromTrade`: on a wrong call, each
contributing feature's weight moves by `−sign(impact)·0.01`, clamped to
`[0.01, 0.5]`. -/
def adjustFeatureWeights (weights : Feature → ℚ)
    (factors : List ContributingFactor) : Feature → ℚ :=
  factors.foldl
    (fun acc factor =>
      let currentWeight := acc factor.feature
      let adjustment := -(jsSign factor.impact) * 0.01
      fun g =>
        if g = factor.feature then max 0.01 (min 0.5 (currentWeight + adjustment))
        else acc g)
    weights

/-- `learnFromTrade(trade)` of MLBridge (part_000 lines 601-657).  When
disabled the method returns `false` IMMEDIATELY — it touches no counter,
weight or accuracy.  When enabled it increments `totalPredictions`;
without `predictionDetails` it only records the success/failure count;
otherwise it updates correctness counters or nudges weights, records the
success/failure count, recomputes accuracy, and every 50th learning event
triggers `train()`. -/
def MLBridge.learnFromTrade (rng : Rng) (m : MLBridge) (trade : MLTrade) :
    MLBridge × Bool :=
  if m.enabled = false then (m, false)
  else
    let m := { m with totalPredictions := m.totalPredictions + 1 }
    match trade.predictionDetails with
    | none =>
        (if trade.success then { m with successfulTrades := m.successfulTrades + 1 }
         else { m with failedTrades := m.failedTrades + 1 }, false)
    | some predictionDetails =>
        let predictedSuccess := predictionDetails.prediction = 1
        let actualSuccess := trade.success = true
        let wasCorrect := predictedSuccess = actualSuccess
        let m :=
          if wasCorrect then { m with correctPredictions := m.correctPredictions + 1 }
          else
            { m with
              featureImportance :=
                adjustFeatureWeights m.featureImportance
                  (predictionDetails.contributingFactors.getD []) }
        let m :=
          if actualSuccess then { m with successfulTrades := m.successfulTrades + 1 }
          else { m with failedTrades := m.failedTrades + 1 }
        let m :=
          { m with
            accuracy :=
              if 0 < m.totalPredictions then
                ((m.correctPredictions : ℚ) / (m.totalPredictions : ℚ)) * 100
              else 85 }
        let m :=
          if 0 < m.totalPredictions ∧ m.totalPredictions % 50 = 0 then train rng m
          else m
        (m, true)

/-! ### The DexConnector price resolver and tradeability check
(src/web/server/modules/dexConnector.js) -/

/-- The `source` tag of a price cache entry (`'Helius'`, `'Jupiter'`,
`'Jupiter-Direct'`). -/
inductive PriceSource where
  | helius
  | jupiter
  | jupiterDirect
  deriving Repr, DecidableEq

/-- One entry of `this.priceCache`. -/
structure PriceCacheEntry where
  price : ℚ
  timestamp : ℕ
  source : PriceSource
  deriving Repr, DecidableEq

/-- `this.priceCache` (a JavaScript `Map`), keyed by mint address. -/
abbrev PriceCache := List (String × PriceCacheEntry)

/-- `priceCache.get` semantics. -/
def priceCacheGet (cache : PriceCache) (mintAddress : String) : Option PriceCacheEntry :=
  (cache.find? (fun kv => kv.1 = mintAddress)).map (fun kv => kv.2)

/-- `priceCache.set` semantics: overwrite the entry for the key. -/
def priceCacheSet (cache : PriceCache) (mintAddress : String)
    (entry : PriceCacheEntry) : PriceCache :=
  (mintAddress, entry) :: cache.filter (fun kv => kv.1 ≠ mintAddress)

/-- `this.priceCacheTTL = 60 * 1000`. -/
def priceCacheTTL : ℕ := 60 * 1000

/-- The cache entry used by `getTokenPrice` when it is still fresh. -/
def priceCacheFresh (cache : PriceCache) (now : ℕ) (mintAddress : String) :
    Option PriceCacheEntry :=
  match priceCacheGet cache mintAddress with
  | some cached => if now - cached.timestamp < priceCacheTTL then some cached else none
  | none => none

/-- Outcome of the first Jupiter price request inside `getTokenPrice`.
The code distinguishes a thrown request (caught, `price` stays `null`,
and the alternative direct endpoint is NOT tried) from a response that
came back without a usable price entry (the direct endpoint IS tried). -/
inductive JupiterPriceResult where
  | threw
  | noData
  | price (p : ℚ)
  deriving Repr, DecidableEq

/-- The upstream responses a single `getTokenPrice` call can observe:
the Helius `price_per_token` (when the call succeeded and the field was
present), the first Jupiter price request, and the price field of the
alternative direct Jupiter request (when that succeeded with data). -/
structure PriceResponses where
  helius : Option ℚ
  jupiter : JupiterPriceResult
  jupiterDirect : Option ℚ
  deriving Repr, DecidableEq

/-- The fallback chain of `getTokenPrice` (dexConnector.js lines
268-347), returning the first price VALUE any source yields together
with its source tag: Helius first (when configured); the Jupiter price
endpoint only when no Helius price was set; the alternative direct
Jupiter call only when the first Jupiter response had no usable data
(and its price only when truthy, i.e. nonzero).  Note the chain stops at
the first price set, positive or not. -/
def fetchPrice (resp : PriceResponses) (heliusConfigured : Bool) :
    Option (ℚ × PriceSource) :=
  let heliusPrice : Option ℚ := if heliusConfigured then resp.helius else none
  match heliusPrice with
  | some p => some (p, PriceSource.helius)
  | none =>
      match resp.jupiter with
      | JupiterPriceResult.price p => some (p, PriceSource.jupiter)
      | JupiterPriceResult.noData =>
          match resp.jupiterDirect with
          | some p => if p = 0 then none else some (p, PriceSource.jupiterDirect)
          | none => none
      | JupiterPriceResult.threw => none

/-- `getTokenPrice(mintAddress)` of dexConnector.js (lines 255-357):
serve a fresh cache entry if present; otherwise run the fallback chain;
cache and return the price only when it is positive; on any other
outcome return `null` (NotFound) and leave the cache untouched. -/
def getTokenPrice (resp : PriceResponses) (heliusConfigured : Bool) (now : ℕ)
    (cache : PriceCache) (mintAddress : String) : Option ℚ × PriceCache :=
  match priceCacheFresh cache now mintAddress with
  | some cached => (some cached.price, cache)
  | none =>
      match fetchPrice resp heliusConfigured with
      | some fetched =>
          if 0 < fetched.1 then
            (some fetched.1,
             priceCacheSet cache mintAddress
               { price := fetched.1, timestamp := now, source := fetched.2 })
          else (none, cache)
      | none => (none, cache)

/-- The price-resolution algorithm exactly as §4.2 of the specification
words it, for comparison with `getTokenPrice`: serve a fresh cache entry,
otherwise query the primary oracle, then the swap-aggregator quote
endpoint, then a last-resort static table, in that fixed order; the FIRST
source returning a POSITIVE price wins and is cached; if all sources fail
the result is NotFound and nothing is cached.  (`oracle`, `aggregator`
and `staticTable` are the prices those three sources would report for the
asset, `none` for failure.) -/
def getPriceSpecModel (oracle aggregator staticTable : Option ℚ) (now : ℕ)
    (cache : PriceCache) (mintAddress : String) : Option ℚ × PriceCache :=
  match priceCacheFresh cache now mintAddress with
  | some cached => (some cached.price, cache)
  | none =>
      match ([oracle, aggregator, staticTable].filterMap id).find? (fun p => 0 < p) with
      | some p =>
          (some p,
           priceCacheSet cache mintAddress
             { price := p, timestamp := now, source := PriceSource.helius })
      | none => (none, cache)

/-- A swap quote as read by `isTokenTradeable`: the Jupiter `outAmount`
(a decimal string in the source, read with `parseInt`). -/
structure SwapQuote where
  outAmount : ℤ
  deriving Repr, DecidableEq

/-- The USDC mint address constant of `isTokenTradeable`. -/
def usdcAddress : String := "EPjFWdd5AufqSSqeM2qN1xzybapC8G4wEGGkZwyTDt1v"

/-- The result object of `isTokenTradeable`.  The source returns ad hoc
literals; fields absent from a given return are `none`/`false` here. -/
structure TradeableResult where
  tradeable : Bool
  reason : Option String
  impliedSlippage : Option ℚ
  price : Option ℚ
  buyInAmount : Option ℤ
  buyOutAmount : Option ℤ
  sellInAmount : Option ℤ
  sellOutAmount : Option ℤ
  deriving Repr, DecidableEq

/-- `isTokenTradeable(tokenAddress)` of dexConnector.js (lines 590-688).
`getQuoteF from to amount` is the upstream quote collaborator
(`getQuote`), `tokenPrice` the result of the `getTokenPrice` step.
The forward quote swaps 1 USDC (1000000 base units) into the token; the
reverse quote uses the forward quote's ACTUAL `outAmount` as its input;
`impliedSlippage = 1 - sellOut/1000000` (reported multiplied by 100), and
the token is tradeable exactly when that round-trip loss is at most
0.10. -/
def isTokenTradeable (getQuoteF : String → String → ℤ → Option SwapQuote)
    (tokenPrice : Option ℚ) (tokenAddress : String) : TradeableResult :=
  match tokenPrice with
  | none =>
      { tradeable := false, reason := some "No price data available"
        impliedSlippage := none, price := none, buyInAmount := none
        buyOutAmount := none, sellInAmount := none, sellOutAmount := none }
  | some price =>
      if price ≤ 0 then
        { tradeable := false, reason := some "No price data available"
          impliedSlippage := none, price := none, buyInAmount := none
          buyOutAmount := none, sellInAmount := none, sellOutAmount := none }
      else
        match getQuoteF usdcAddress tokenAddress 1000000 with
        | none =>
            { tradeable := false, reason := some "Cannot get buy quote"
              impliedSlippage := none, price := none, buyInAmount := none
              buyOutAmount := none, sellInAmount := none, sellOutAmount := none }
        | some buyQuote =>
            if buyQuote.outAmount ≤ 0 then
              { tradeable := false, reason := some "Cannot get buy quote"
                impliedSlippage := none, price := none, buyInAmount := none
                buyOutAmount := none, sellInAmount := none, sellOutAmount := none }
            else
              let outAmount := buyQuote.outAmount
              match getQuoteF tokenAddress usdcAddress outAmount with
              | none =>
                  { tradeable := false, reason := some "Cannot get sell quote"
                    impliedSlippage := none, price := none, buyInAmount := none
                    buyOutAmount := none, sellInAmount := none, sellOutAmount := none }
              | some sellQuote =>
                  if sellQuote.outAmount ≤ 0 then
                    { tradeable := false, reason := some "Cannot get sell quote"
                      impliedSlippage := none, price := none, buyInAmount := none
                      buyOutAmount := none, sellInAmount := none, sellOutAmount := none }
                  else
                    let usdcReturned : ℚ := (sellQuote.outAmount : ℚ) / 1000000
                    let impliedSlippage := 1 - usdcReturned
                    if 0.10 < impliedSlippage then
                      { tradeable := false
                        reason := some "Excessive slippage indicates low liquidity"
                        impliedSlippage := some (impliedSlippage * 100)
                        price := some price, buyInAmount := none, buyOutAmount := none
                        sellInAmount := none, sellOutAmount := none }
                    else
                      { tradeable := true, reason := none
                        impliedSlippage := some (impliedSlippage * 100)
                        price := some price
                        buyInAmount := some 1000000
                        buyOutAmount := some buyQuote.outAmount
                        sellInAmount := some outAmount
                        sellOutAmount := some sellQuote.outAmount }

/-! ## Theorems -/

/-- C6: for every withdrawal request `x` with prior locked balance `L`:
if `x > 0` and `L > 0`, the withdrawal decreases `lockedBalance` by
exactly `min x L`, increases `balance` by exactly `min x L`, and leaves
`balance + lockedBalance` unchanged; a non-positive `x`, or `L = 0`, is
rejected with no state change. -/
theorem C6_withdraw_lock (s : ServerState) (x : ℚ) :
    (0 < x → 0 < s.profitLock.lockedBalance →
      (profitLockWithdraw x s).2 =
        WithdrawResult.withdrawn (min x s.profitLock.lockedBalance) ∧
      (profitLockWithdraw x s).1.profitLock.lockedBalance
        = s.profitLock.lockedBalance - min x s.profitLock.lockedBalance ∧
      (profitLockWithdraw x s).1.portfolio.balance
        = s.portfolio.balance + min x s.profitLock.lockedBalance ∧
      (profitLockWithdraw x s).1.portfolio.balance +
          (profitLockWithdraw x s).1.profitLock.lockedBalance
        = s.portfolio.balance + s.profitLock.lockedBalance) ∧
    (x ≤ 0 → profitLockWithdraw x s = (s, WithdrawResult.invalidAmount)) ∧
    (0 < x → s.profitLock.lockedBalance = 0 →
      profitLockWithdraw x s = (s, WithdrawResult.noLockedProfits)) := by
  refine ⟨fun hx hL => ?_, fun hx => ?_, fun hx hL => ?_⟩
  · have hmin : 0 < min x s.profitLock.lockedBalance := lt_min hx hL
    simp only [profitLockWithdraw, if_neg (not_le.mpr hx), if_neg (not_le.mpr hmin)]
    exact ⟨trivial, trivial, trivial, by ring⟩
  · simp only [profitLockWithdraw, if_pos hx]
  · simp only [profitLockWithdraw, if_neg (not_le.mpr hx), hL,
      min_eq_right (le_of_lt hx), le_refl, if_pos]

/-- Witness for C6: withdrawing 3 from a state whose locked balance is 2
moves exactly `min 3 2 = 2` from the lock into the balance. -/
theorem C6_withdraw_lock_witness :
    (profitLockWithdraw 3
        { initialState with
          profitLock := { initialState.profitLock with lockedBalance := 2, totalLocked := 2 } }
      ).1.profitLock.lockedBalance
      = ({ initialState with
           profitLock := { initialState.profitLock with lockedBalance := 2, totalLocked := 2 } }
          : ServerState).profitLock.lockedBalance -
        min 3 ({ initialState with
           profitLock := { initialState.profitLock with lockedBalance := 2, totalLocked := 2 } }
          : ServerState).profitLock.lockedBalance :=
  ((C6_withdraw_lock
      { initialState with
        profitLock := { initialState.profitLock with lockedBalance := 2, totalLocked := 2 } }
      3).1 (by norm_num) (by norm_num [initialState])).2.1

/-- C7: from a freshly started demo session (balance 50.00, profit lock
enabled at 20 points), one trade with profit +5.00 yields balance 55.00
(the balance broadcast to viewers), cumulative PnL 5.00, lockedBalance
1.00 and totalLocked 1.00 — the locked skim is not deducted from the
balance. -/
theorem C7_demo_profit_lock_scenario :
    (SoulBot.step 1000
        (Event.applyTrade { id := "t1", timestamp := 1000, profit := 5, success := true })
        (SoulBot.step 0 (Event.startTrading Mode.demo none) initialSys)
      ).server.portfolio.value = 55 ∧
    (SoulBot.step 1000
        (Event.applyTrade { id := "t1", timestamp := 1000, profit := 5, success := true })
        (SoulBot.step 0 (Event.startTrading Mode.demo none) initialSys)
      ).server.portfolio.totalPnL = 5 ∧
    (SoulBot.step 1000
        (Event.applyTrade { id := "t1", timestamp := 1000, profit := 5, success := true })
        (SoulBot.step 0 (Event.startTrading Mode.demo none) initialSys)
      ).server.profitLock.lockedBalance = 1 ∧
    (SoulBot.step 1000
        (Event.applyTrade { id := "t1", timestamp := 1000, profit := 5, success := true })
        (SoulBot.step 0 (Event.startTrading Mode.demo none) initialSys)
      ).server.profitLock.totalLocked = 1 ∧
    sendInitialStateBalance
      (SoulBot.step 1000
        (Event.applyTrade { id := "t1", timestamp := 1000, profit := 5, success := true })
        (SoulBot.step 0 (Event.startTrading Mode.demo none) initialSys)
      ).server = 55 := by
  norm_num [SoulBot.run, SoulBot.step, SoulBot.initialSys, SoulBot.initialState,
    SoulBot.startTrading, SoulBot.startMarketDataTrading, SoulBot.loadWalletState,
    SoulBot.storeLookup, SoulBot.updatePortfolio, SoulBot.sendInitialStateBalance]

/-- C9: the ledger keeps two distinct balance fields — applying a trade
adds the profit only to `portfolio.value` (the "balance" broadcast to
viewers by `sendInitialState` and `updatePortfolio`), while a lock
withdrawal credits only `portfolio.balance`; hence a withdrawal never
changes the viewer-observed balance, and withdrawn funds never re-enter
the balance that trades update. -/
theorem C9_two_balance_fields (s : ServerState) (t : Trade) (now : ℕ) (x : ℚ) :
    (updatePortfolio now t s).portfolio.value = s.portfolio.value + t.profit ∧
    (updatePortfolio now t s).portfolio.balance = s.portfolio.balance ∧
    (profitLockWithdraw x s).1.portfolio.value = s.portfolio.value ∧
    sendInitialStateBalance (profitLockWithdraw x s).1 = sendInitialStateBalance s := by
  refine ⟨?_, ?_, ?_, ?_⟩
  · simp only [updatePortfolio]
    split <;> rfl
  · simp only [updatePortfolio]
    split <;> rfl
  · simp only [profitLockWithdraw]
    split
    · rfl
    · split <;> rfl
  · simp only [sendInitialStateBalance, profitLockWithdraw]
    split
    · rfl
    · split <;> rfl

/-- C10: profit-lock configuration is not atomic on validation failure —
a configure request carrying both an `enabled` value and a percentage
outside [0, 100] is answered with the validation error, yet the
`enabled` change has already been applied and persists. -/
theorem C10_configure_not_atomic (s : ServerState) (e : Bool) (p : ℚ)
    (h : p < 0 ∨ 100 < p) :
    profitLockConfigure (some p) (some e) s =
      ({ s with profitLock := { s.profitLock with enabled := e } },
       ConfigureResult.percentageOutOfRange) := by
  simp only [profitLockConfigure]
  rw [if_pos h]

/-- Witness for C10: configuring `enabled := false` together with the
out-of-range percentage 150 returns the validation error but flips
`enabled` anyway. -/
theorem C10_configure_not_atomic_witness :
    profitLockConfigure (some 150) (some false) initialState =
      ({ initialState with
         profitLock := { initialState.profitLock with enabled := false } },
       ConfigureResult.percentageOutOfRange) :=
  C10_configure_not_atomic initialState false 150 (Or.inr (by norm_num))

/-- `loadWalletState` never touches the live wallet address. -/
lemma loadWalletState_liveWalletAddress (w : Option String) (store : WalletStore)
    (s : ServerState) :
    (loadWalletState w store s).1.liveWalletAddress = s.liveWalletAddress := by
  unfold loadWalletState
  split
  · rfl
  · split <;> rfl

/-- `loadWalletState` never touches the trading control. -/
lemma loadWalletState_tradingControl (w : Option String) (store : WalletStore)
    (s : ServerState) :
    (loadWalletState w store s).1.tradingControl = s.tradingControl := by
  unfold loadWalletState
  split
  · rfl
  · split <;> rfl

/-- The configure endpoint never touches the trading control. -/
lemma profitLockConfigure_tradingControl (p : Option ℚ) (en : Option Bool)
    (s : ServerState) :
    (profitLockConfigure p en s).1.tradingControl = s.tradingControl := by
  unfold profitLockConfigure
  rcases en with _ | e <;> rcases p with _ | q <;> try rfl
  · dsimp only
    split_ifs <;> rfl
  · dsimp only
    split_ifs <;> rfl

/-- The configure endpoint never touches the live wallet address. -/
lemma profitLockConfigure_liveWalletAddress (p : Option ℚ) (en : Option Bool)
    (s : ServerState) :
    (profitLockConfigure p en s).1.liveWalletAddress = s.liveWalletAddress := by
  unfold profitLockConfigure
  rcases en with _ | e <;> rcases p with _ | q <;> try rfl
  · dsimp only
    split_ifs <;> rfl
  · dsimp only
    split_ifs <;> rfl

/-- C2 counterexample: starting a live session for wallet `"abc"` and
then sending `disconnect_wallet` leaves the session RUNNING in LIVE mode
with a null identity — a reachable state violating the claimed
invariant. -/
theorem C2_counterexample_disconnect_breaks_invariant :
    (SoulBot.run initialSys
        [(0, Event.startTrading Mode.live (some "abc")),
         (1, Event.disconnectWallet (some "abc"))]).server.tradingControl.isRunning = true ∧
    (SoulBot.run initialSys
        [(0, Event.startTrading Mode.live (some "abc")),
         (1, Event.disconnectWallet (some "abc"))]).server.tradingControl.mode = Mode.live ∧
    (SoulBot.run initialSys
        [(0, Event.startTrading Mode.live (some "abc")),
         (1, Event.disconnectWallet (some "abc"))]).server.liveWalletAddress = none ∧
    ¬ LiveInv (SoulBot.run initialSys
        [(0, Event.startTrading Mode.live (some "abc")),
         (1, Event.disconnectWallet (some "abc"))]).server := by
  have h1 : (SoulBot.run initialSys
      [(0, Event.startTrading Mode.live (some "abc")),
       (1, Event.disconnectWallet (some "abc"))]).server.tradingControl.isRunning = true := by
    norm_num [SoulBot.run, SoulBot.step, SoulBot.initialSys, SoulBot.initialState,
      SoulBot.startTrading, SoulBot.startMarketDataTrading, SoulBot.loadWalletState,
      SoulBot.storeLookup, SoulBot.disconnectWallet, SoulBot.saveWalletState,
      SoulBot.storeSave]
  have h2 : (SoulBot.run initialSys
      [(0, Event.startTrading Mode.live (some "abc")),
       (1, Event.disconnectWallet (some "abc"))]).server.tradingControl.mode = Mode.live := by
    norm_num [SoulBot.run, SoulBot.step, SoulBot.initialSys, SoulBot.initialState,
      SoulBot.startTrading, SoulBot.startMarketDataTrading, SoulBot.loadWalletState,
      SoulBot.storeLookup, SoulBot.disconnectWallet, SoulBot.saveWalletState,
      SoulBot.storeSave]
  have h3 : (SoulBot.run initialSys
      [(0, Event.startTrading Mode.live (some "abc")),
       (1, Event.disconnectWallet (some "abc"))]).server.liveWalletAddress = none := by
    norm_num [SoulBot.run, SoulBot.step, SoulBot.initialSys, SoulBot.initialState,
      SoulBot.startTrading, SoulBot.startMarketDataTrading, SoulBot.loadWalletState,
      SoulBot.storeLookup, SoulBot.disconnectWallet, SoulBot.saveWalletState,
      SoulBot.storeSave]
  exact ⟨h1, h2, h3, fun h => h h1 h2 h3⟩

/-- C2 (amended): `start(Live)` without a connected identity leaves the
whole system unchanged, and the invariant "running ∧ Live → identity
present" is preserved by every session event EXCEPT `disconnect_wallet`
(which clears the identity while the session keeps running). -/
theorem C2_amended_live_invariant (sys : Sys) (now : ℕ) (e : Event)
    (hInv : LiveInv sys.server)
    (hNotDisc : ∀ w, e ≠ Event.disconnectWallet w) :
    LiveInv (SoulBot.step now e sys).server ∧
    SoulBot.step now (Event.startTrading Mode.live none) sys = sys := by
  constructor
  · cases e with
    | startTrading mode w =>
        cases mode with
        | demo =>
            by_cases hr : sys.server.tradingControl.isRunning
            · simpa [SoulBot.step, startTrading, hr] using hInv
            · simp [SoulBot.step, startTrading, startMarketDataTrading, hr, LiveInv]
        | live =>
            cases w with
            | none => simpa [SoulBot.step, startTrading] using hInv
            | some a =>
                by_cases hr : sys.server.tradingControl.isRunning
                · simpa [SoulBot.step, startTrading, hr] using hInv
                · intro _ _
                  simp only [SoulBot.step, startTrading, hr, if_false, Bool.false_eq_true]
                  show ¬ (startMarketDataTrading _).liveWalletAddress = none
                  simp only [startMarketDataTrading]
                  split
                  · rw [loadWalletState_liveWalletAddress]
                    simp
                  · split <;> (rw [loadWalletState_liveWalletAddress]; simp)
    | stopTrading =>
        by_cases hr : sys.server.tradingControl.isRunning
        · intro hrun hmode
          simp only [SoulBot.step, stopTrading] at hrun hmode ⊢
          rw [if_neg (by simp [hr])] at hrun
          split at hrun <;> simp_all
        · simpa [SoulBot.step, stopTrading, hr] using hInv
    | applyTrade t =>
        intro hrun hmode
        have h1 : (SoulBot.step now (Event.applyTrade t) sys).server.tradingControl
            = sys.server.tradingControl := rfl
        have h2 : (SoulBot.step now (Event.applyTrade t) sys).server.liveWalletAddress
            = sys.server.liveWalletAddress := rfl
        rw [h2]
        exact hInv (h1 ▸ hrun) (h1 ▸ hmode)
    | configureLock p en =>
        intro hrun hmode
        have hs : (SoulBot.step now (Event.configureLock p en) sys).server
            = (profitLockConfigure p en sys.server).1 := rfl
        rw [hs] at hrun hmode ⊢
        rw [profitLockConfigure_liveWalletAddress]
        exact hInv (by rwa [profitLockConfigure_tradingControl] at hrun)
          (by rwa [profitLockConfigure_tradingControl] at hmode)
    | withdrawLock x =>
        intro hrun hmode
        simp only [SoulBot.step, profitLockWithdraw] at hrun hmode ⊢
        split_ifs at * <;> simp_all [LiveInv]
    | disconnectWallet w => exact absurd rfl (hNotDisc w)
  · simp [SoulBot.step, startTrading]

/-- Witness for the amended C2: at the initial system, a `stop_trading`
event preserves the invariant and `start(Live, null)` is the identity. -/
theorem C2_amended_live_invariant_witness :
    LiveInv (SoulBot.step 0 Event.stopTrading initialSys).server ∧
    SoulBot.step 0 (Event.startTrading Mode.live none) initialSys = initialSys :=
  C2_amended_live_invariant initialSys 0 Event.stopTrading
    (by intro h; simp [initialSys, initialState] at h)
    (by intro w; simp)

/-- C1: the live-session restore is clobbered.  A live session for
identity `"abc"` that locked profit, reached balance 55 and logged one
trade is persisted on stop; restarting live with the same identity loads
the snapshot but then `startMarketDataTrading` unconditionally resets
the ledger, so the observed balance is 50.00, the trade log is empty and
`lockedBalance` is 0 — NOT the persisted 55 / 1 / 1.00. -/
theorem C1_live_restart_wipes_restored_snapshot :
    ((storeLookup (SoulBot.run initialSys
        [(0, Event.startTrading Mode.live (some "abc")),
         (1000, Event.applyTrade { id := "t1", timestamp := 1000, profit := 5, success := true }),
         (2000, Event.stopTrading),
         (3000, Event.startTrading Mode.live (some "abc"))]).store "abc").map
        (fun sn => sn.portfolio.value) = some 55 ∧
      (storeLookup (SoulBot.run initialSys
        [(0, Event.startTrading Mode.live (some "abc")),
         (1000, Event.applyTrade { id := "t1", timestamp := 1000, profit := 5, success := true }),
         (2000, Event.stopTrading),
         (3000, Event.startTrading Mode.live (some "abc"))]).store "abc").map
        (fun sn => sn.trades.length) = some 1 ∧
      (storeLookup (SoulBot.run initialSys
        [(0, Event.startTrading Mode.live (some "abc")),
         (1000, Event.applyTrade { id := "t1", timestamp := 1000, profit := 5, success := true }),
         (2000, Event.stopTrading),
         (3000, Event.startTrading Mode.live (some "abc"))]).store "abc").map
        (fun sn => sn.profitLock.lockedBalance) = some 1) ∧
    ((SoulBot.run initialSys
        [(0, Event.startTrading Mode.live (some "abc")),
         (1000, Event.applyTrade { id := "t1", timestamp := 1000, profit := 5, success := true }),
         (2000, Event.stopTrading),
         (3000, Event.startTrading Mode.live (some "abc"))]).server.portfolio.value = 50 ∧
      (SoulBot.run initialSys
        [(0, Event.startTrading Mode.live (some "abc")),
         (1000, Event.applyTrade { id := "t1", timestamp := 1000, profit := 5, success := true }),
         (2000, Event.stopTrading),
         (3000, Event.startTrading Mode.live (some "abc"))]).server.trades.length = 0 ∧
      (SoulBot.run initialSys
        [(0, Event.startTrading Mode.live (some "abc")),
         (1000, Event.applyTrade { id := "t1", timestamp := 1000, profit := 5, success := true }),
         (2000, Event.stopTrading),
         (3000, Event.startTrading Mode.live (some "abc"))]).server.profitLock.lockedBalance
        = 0) := by
  norm_num [SoulBot.run, SoulBot.step, SoulBot.initialSys, SoulBot.initialState,
    SoulBot.startTrading, SoulBot.startMarketDataTrading, SoulBot.loadWalletState,
    SoulBot.storeLookup, SoulBot.storeSave, SoulBot.saveWalletState, SoulBot.stopTrading,
    SoulBot.updatePortfolio]

/-- `stop_trading` never touches the profit lock. -/
lemma stopTrading_profitLock (now : ℕ) (s : ServerState) (store : WalletStore) :
    (stopTrading now s store).1.profitLock = s.profitLock := by
  unfold stopTrading
  split
  · rfl
  · split <;> (cases hm : s.tradingControl.mode <;> simp [hm])

/-- `disconnect_wallet` never touches the profit lock. -/
lemma disconnectWallet_profitLock (now : ℕ) (w : Option String) (s : ServerState)
    (store : WalletStore) :
    (disconnectWallet now w s store).1.profitLock = s.profitLock := by
  unfold disconnectWallet
  split_ifs <;> rfl

/-- The configure endpoint never touches the locked amounts. -/
lemma profitLockConfigure_lockedBalance (p : Option ℚ) (en : Option Bool)
    (s : ServerState) :
    (profitLockConfigure p en s).1.profitLock.lockedBalance = s.profitLock.lockedBalance ∧
    (profitLockConfigure p en s).1.profitLock.totalLocked = s.profitLock.totalLocked := by
  unfold profitLockConfigure
  rcases en with _ | e <;> rcases p with _ | q <;> try exact ⟨rfl, rfl⟩
  · dsimp only
    split_ifs <;> exact ⟨rfl, rfl⟩
  · dsimp only
    split_ifs <;> exact ⟨rfl, rfl⟩

/-- Applying a trade moves `lockedBalance` and `totalLocked` by the same
(equal) lock amount, so it preserves `lockedBalance ≤ totalLocked`. -/
lemma updatePortfolio_lock_le (now : ℕ) (t : Trade) (s : ServerState)
    (h : s.profitLock.lockedBalance ≤ s.profitLock.totalLocked) :
    (updatePortfolio now t s).profitLock.lockedBalance ≤
      (updatePortfolio now t s).profitLock.totalLocked := by
  simp only [updatePortfolio]
  split_ifs with hc
  · dsimp only
    linarith
  · exact h

/-- Applying a trade never decreases `totalLocked` (for a non-negative
configured lock percentage). -/
lemma updatePortfolio_totalLocked_mono (now : ℕ) (t : Trade) (s : ServerState)
    (hp : 0 ≤ s.profitLock.percentage) :
    s.profitLock.totalLocked ≤ (updatePortfolio now t s).profitLock.totalLocked := by
  simp only [updatePortfolio]
  split_ifs with hc
  · dsimp only
    have h1 : 0 ≤ t.profit * s.profitLock.percentage :=
      mul_nonneg (le_of_lt hc.2) hp
    have h2 : 0 ≤ t.profit * s.profitLock.percentage / 100 :=
      div_nonneg h1 (by norm_num)
    linarith
  · exact le_refl _

/-- C8 counterexample: `totalLocked` is NOT non-decreasing across every
ledger operation — a demo session that locked 1.00 of profit, once
stopped and started again, has `totalLocked` reset from 1 to 0 by the
session start (which is not a schema reset). -/
theorem C8_counterexample_start_resets_totalLocked :
    (SoulBot.run initialSys
        [(0, Event.startTrading Mode.demo none),
         (1000, Event.applyTrade { id := "t1", timestamp := 1000, profit := 5, success := true }),
         (2000, Event.stopTrading)]).server.profitLock.totalLocked = 1 ∧
    (SoulBot.step 3000 (Event.startTrading Mode.demo none)
        (SoulBot.run initialSys
          [(0, Event.startTrading Mode.demo none),
           (1000, Event.applyTrade { id := "t1", timestamp := 1000, profit := 5, success := true }),
           (2000, Event.stopTrading)])).server.profitLock.totalLocked = 0 ∧
    ¬ ((SoulBot.run initialSys
          [(0, Event.startTrading Mode.demo none),
           (1000, Event.applyTrade { id := "t1", timestamp := 1000, profit := 5, success := true }),
           (2000, Event.stopTrading)]).server.profitLock.totalLocked ≤
        (SoulBot.step 3000 (Event.startTrading Mode.demo none)
          (SoulBot.run initialSys
            [(0, Event.startTrading Mode.demo none),
             (1000, Event.applyTrade { id := "t1", timestamp := 1000, profit := 5, success := true }),
             (2000, Event.stopTrading)])).server.profitLock.totalLocked) := by
  have h1 : (SoulBot.run initialSys
      [(0, Event.startTrading Mode.demo none),
       (1000, Event.applyTrade { id := "t1", timestamp := 1000, profit := 5, success := true }),
       (2000, Event.stopTrading)]).server.profitLock.totalLocked = 1 := by
    norm_num [SoulBot.run, SoulBot.step, SoulBot.initialSys, SoulBot.initialState,
      SoulBot.startTrading, SoulBot.startMarketDataTrading, SoulBot.loadWalletState,
      SoulBot.storeLookup, SoulBot.storeSave, SoulBot.saveWalletState, SoulBot.stopTrading,
      SoulBot.updatePortfolio]
  have h2 : (SoulBot.step 3000 (Event.startTrading Mode.demo none)
      (SoulBot.run initialSys
        [(0, Event.startTrading Mode.demo none),
         (1000, Event.applyTrade { id := "t1", timestamp := 1000, profit := 5, success := true }),
         (2000, Event.stopTrading)])).server.profitLock.totalLocked = 0 := by
    norm_num [SoulBot.run, SoulBot.step, SoulBot.initialSys, SoulBot.initialState,
      SoulBot.startTrading, SoulBot.startMarketDataTrading, SoulBot.loadWalletState,
      SoulBot.storeLookup, SoulBot.storeSave, SoulBot.saveWalletState, SoulBot.stopTrading,
      SoulBot.updatePortfolio]
  refine ⟨h1, h2, ?_⟩
  rw [h1, h2]
  norm_num

/-- C8 (amended): every session event preserves
`lockedBalance ≤ totalLocked` (given the configured percentage is
non-negative, which the configure endpoint enforces), and `totalLocked`
is non-decreasing across every event EXCEPT a session start, which
resets both locked amounts to zero. -/
theorem C8_amended_lock_invariant (sys : Sys) (now : ℕ) (e : Event)
    (hInv : sys.server.profitLock.lockedBalance ≤ sys.server.profitLock.totalLocked)
    (hPct : 0 ≤ sys.server.profitLock.percentage) :
    ((SoulBot.step now e sys).server.profitLock.lockedBalance ≤
      (SoulBot.step now e sys).server.profitLock.totalLocked) ∧
    (isStartEvent e = false →
      sys.server.profitLock.totalLocked ≤
        (SoulBot.step now e sys).server.profitLock.totalLocked) := by
  cases e with
  | startTrading mode w =>
      refine ⟨?_, fun h => absurd h (by simp [isStartEvent])⟩
      cases mode with
      | demo =>
          by_cases hr : sys.server.tradingControl.isRunning
          · simpa [SoulBot.step, startTrading, hr] using hInv
          · simp [SoulBot.step, startTrading, startMarketDataTrading, hr]
      | live =>
          cases w with
          | none => simpa [SoulBot.step, startTrading] using hInv
          | some a =>
              by_cases hr : sys.server.tradingControl.isRunning
              · simpa [SoulBot.step, startTrading, hr] using hInv
              · have h0 : (SoulBot.step now (Event.startTrading Mode.live (some a)) sys
                    ).server.profitLock.lockedBalance = 0 := by
                  simp only [SoulBot.step, startTrading, hr, if_false, Bool.false_eq_true]
                  rfl
                have h1 : (SoulBot.step now (Event.startTrading Mode.live (some a)) sys
                    ).server.profitLock.totalLocked = 0 := by
                  simp only [SoulBot.step, startTrading, hr, if_false, Bool.false_eq_true]
                  rfl
                rw [h0, h1]
  | stopTrading =>
      have h : (SoulBot.step now Event.stopTrading sys).server.profitLock
          = sys.server.profitLock := stopTrading_profitLock now sys.server sys.store
      rw [h]
      exact ⟨hInv, fun _ => le_refl _⟩
  | applyTrade t =>
      constructor
      · exact updatePortfolio_lock_le now t _ hInv
      · intro _
        exact updatePortfolio_totalLocked_mono now t _ hPct
  | configureLock p en =>
      have hs : (SoulBot.step now (Event.configureLock p en) sys).server
          = (profitLockConfigure p en sys.server).1 := rfl
      rw [hs, (profitLockConfigure_lockedBalance p en sys.server).1,
        (profitLockConfigure_lockedBalance p en sys.server).2]
      exact ⟨hInv, fun _ => le_refl _⟩
  | withdrawLock x =>
      have hs : (SoulBot.step now (Event.withdrawLock x) sys).server
          = (profitLockWithdraw x sys.server).1 := rfl
      rw [hs]
      simp only [profitLockWithdraw]
      split_ifs with h1 h2
      · exact ⟨hInv, fun _ => le_refl _⟩
      · exact ⟨hInv, fun _ => le_refl _⟩
      · constructor
        · push_neg at h2
          dsimp only
          linarith [min_le_right x sys.server.profitLock.lockedBalance]
        · intro _
          exact le_refl _
  | disconnectWallet w =>
      have h : (SoulBot.step now (Event.disconnectWallet w) sys).server.profitLock
          = sys.server.profitLock := disconnectWallet_profitLock now w sys.server sys.store
      rw [h]
      exact ⟨hInv, fun _ => le_refl _⟩

/-- Witness for the amended C8: applying a profitable trade at the
initial system keeps `lockedBalance ≤ totalLocked` and does not decrease
`totalLocked`. -/
theorem C8_amended_lock_invariant_witness :
    ((SoulBot.step 1000
        (Event.applyTrade { id := "t1", timestamp := 1000, profit := 5, success := true })
        initialSys).server.profitLock.lockedBalance ≤
      (SoulBot.step 1000
        (Event.applyTrade { id := "t1", timestamp := 1000, profit := 5, success := true })
        initialSys).server.profitLock.totalLocked) ∧
    (isStartEvent
        (Event.applyTrade { id := "t1", timestamp := 1000, profit := 5, success := true })
          = false →
      initialSys.server.profitLock.totalLocked ≤
        (SoulBot.step 1000
          (Event.applyTrade { id := "t1", timestamp := 1000, profit := 5, success := true })
          initialSys).server.profitLock.totalLocked) :=
  C8_amended_lock_invariant initialSys 1000
    (Event.applyTrade { id := "t1", timestamp := 1000, profit := 5, success := true })
    (by norm_num [initialSys, initialState])
    (by norm_num [initialSys, initialState])

/-- C3 counterexample: `learn` on a DISABLED scorer does NOT record the
success count — the claim that it "still increments the success/failure
counters" fails on a successful trade, whose success counter stays 0
instead of becoming 1. -/
theorem C3_counterexample_disabled_learn_counts_nothing :
    ¬ ((MLBridge.learnFromTrade (fun _ => 0) { initialMLBridge with enabled := false }
          { id := "t0", success := true, predictionDetails := none }).1.successfulTrades
        = ({ initialMLBridge with enabled := false } : MLBridge).successfulTrades + 1) := by
  simp [MLBridge.learnFromTrade, initialMLBridge]

/-- C3 (amended): on a disabled scorer, `predict` always returns a record
tagged `isDisabled = true` and leaves the whole scorer state (feature
weights included) unchanged, and `learnFromTrade` is a COMPLETE no-op
returning `false`: accuracy, feature weights AND the success/failure
counters are all left unchanged. -/
theorem C3_amended_disabled_scorer (env : MathEnv) (rng : Rng) (m : MLBridge)
    (d : PredictInput) (t : MLTrade) (h : m.enabled = false) :
    (MLBridge.predict env rng m d).1.isDisabled = true ∧
    (MLBridge.predict env rng m d).2 = m ∧
    MLBridge.learnFromTrade rng m t = (m, false) := by
  simp [MLBridge.predict, MLBridge.learnFromTrade, h]

/-- Witness for the amended C3 at a concrete disabled scorer, input and
trade. -/
theorem C3_amended_disabled_scorer_witness :
    (MLBridge.predict { log10 := fun q => q, sqrt := fun q => q } (fun _ => 0)
        { initialMLBridge with enabled := false }
        { features := fun _ => none, priceHistory := [], marketTrend := none }
      ).1.isDisabled = true ∧
    (MLBridge.predict { log10 := fun q => q, sqrt := fun q => q } (fun _ => 0)
        { initialMLBridge with enabled := false }
        { features := fun _ => none, priceHistory := [], marketTrend := none }
      ).2 = { initialMLBridge with enabled := false } ∧
    MLBridge.learnFromTrade (fun _ => 0) { initialMLBridge with enabled := false }
        { id := "t0", success := true, predictionDetails := none }
      = ({ initialMLBridge with enabled := false }, false) :=
  C3_amended_disabled_scorer _ _ _ _ _ rfl

/-- C4 counterexample: the claim "the first source returning a positive
price is cached and returned" fails — when the primary oracle reports a
price of 0 and the aggregator would report 5, the code returns NotFound
(and caches nothing) because the fallback chain stops at the first price
VALUE, positive or not, while the specified algorithm would return and
cache 5. -/
theorem C4_counterexample_zero_oracle_price :
    (getTokenPrice
        { helius := some 0, jupiter := JupiterPriceResult.price 5, jupiterDirect := none }
        true 0 [] "mintX").1 = none ∧
    (getPriceSpecModel (some 0) (some 5) none 0 [] "mintX").1 = some 5 := by
  constructor
  · norm_num [getTokenPrice, fetchPrice, priceCacheFresh, priceCacheGet]
  · norm_num [getPriceSpecModel, priceCacheFresh, priceCacheGet]

/-- C4 (amended): on a cache miss, `getTokenPrice` runs its fallback
chain (Helius when configured; Jupiter when Helius yielded no price;
the direct Jupiter endpoint only when the first Jupiter response had no
usable data, and never for a zero direct price); a positive fetched
price is returned and cached with its source tag; a non-positive fetched
price or an all-sources failure yields NotFound with the cache
untouched. -/
theorem C4_amended_price_fallback (resp : PriceResponses) (heliusConfigured : Bool)
    (now : ℕ) (cache : PriceCache) (mint : String)
    (hMiss : priceCacheFresh cache now mint = none) :
    (∀ p src, fetchPrice resp heliusConfigured = some (p, src) → 0 < p →
        getTokenPrice resp heliusConfigured now cache mint =
          (some p, priceCacheSet cache mint { price := p, timestamp := now, source := src })) ∧
    (∀ p src, fetchPrice resp heliusConfigured = some (p, src) → p ≤ 0 →
        getTokenPrice resp heliusConfigured now cache mint = (none, cache)) ∧
    (fetchPrice resp heliusConfigured = none →
        getTokenPrice resp heliusConfigured now cache mint = (none, cache)) ∧
    (∀ p, heliusConfigured = true → resp.helius = some p →
        fetchPrice resp heliusConfigured = some (p, PriceSource.helius)) ∧
    (∀ p, (if heliusConfigured then resp.helius else none) = none →
        resp.jupiter = JupiterPriceResult.price p →
        fetchPrice resp heliusConfigured = some (p, PriceSource.jupiter)) ∧
    (∀ p, (if heliusConfigured then resp.helius else none) = none →
        resp.jupiter = JupiterPriceResult.noData → resp.jupiterDirect = some p → p ≠ 0 →
        fetchPrice resp heliusConfigured = some (p, PriceSource.jupiterDirect)) := by
  refine ⟨?_, ?_, ?_, ?_, ?_, ?_⟩
  · intro p src hf hp
    simp only [getTokenPrice, hMiss, hf]
    rw [if_pos hp]
  · intro p src hf hp
    simp only [getTokenPrice, hMiss, hf]
    rw [if_neg (not_lt.mpr hp)]
  · intro hf
    simp only [getTokenPrice, hMiss, hf]
  · intro p hcfg hh
    simp [fetchPrice, hcfg, hh]
  · intro p hnone hj
    simp only [fetchPrice, hnone, hj]
  · intro p hnone hj hd hp0
    simp only [fetchPrice, hnone, hj, hd]
    rw [if_neg hp0]

/-- Witness for the amended C4: with an empty cache and Helius reporting
price 3, the resolver returns 3 and caches it under the Helius tag. -/
theorem C4_amended_price_fallback_witness :
    getTokenPrice
        { helius := some 3, jupiter := JupiterPriceResult.threw, jupiterDirect := none }
        true 0 [] "mintY"
      = (some 3,
         priceCacheSet [] "mintY"
           { price := 3, timestamp := 0, source := PriceSource.helius }) :=
  (C4_amended_price_fallback
      { helius := some 3, jupiter := JupiterPriceResult.threw, jupiterDirect := none }
      true 0 [] "mintY" rfl).1 3 PriceSource.helius rfl (by norm_num)

/-- C5: the tradeability check issues the reverse quote with input equal
to the forward quote's actual output `bq.outAmount`; the reported
implied-slippage field equals `(1 − reverseOutput / forwardInput) · 100`
(the forward input being the fixed 1000000 USDC base units, the factor
100 converting the fraction to percent); the token is reported tradeable
exactly when the round-trip loss is at most 0.10, and an excessive loss
is flagged with the excessive-slippage reason. -/
theorem C5_tradeability_round_trip (getQuoteF : String → String → ℤ → Option SwapQuote)
    (price : ℚ) (tokenAddress : String) (bq sq : SwapQuote)
    (hp : 0 < price)
    (hbq : getQuoteF usdcAddress tokenAddress 1000000 = some bq)
    (hbo : 0 < bq.outAmount)
    (hsq : getQuoteF tokenAddress usdcAddress bq.outAmount = some sq)
    (hso : 0 < sq.outAmount) :
    (isTokenTradeable getQuoteF (some price) tokenAddress).impliedSlippage
      = some ((1 - (sq.outAmount : ℚ) / 1000000) * 100) ∧
    ((isTokenTradeable getQuoteF (some price) tokenAddress).tradeable = true ↔
      1 - (sq.outAmount : ℚ) / 1000000 ≤ 0.10) ∧
    (¬ (1 - (sq.outAmount : ℚ) / 1000000 ≤ 0.10) →
      (isTokenTradeable getQuoteF (some price) tokenAddress).reason
        = some "Excessive slippage indicates low liquidity") ∧
    ((isTokenTradeable getQuoteF (some price) tokenAddress).tradeable = true →
      (isTokenTradeable getQuoteF (some price) tokenAddress).sellInAmount = some bq.outAmount ∧
      (isTokenTradeable getQuoteF (some price) tokenAddress).buyInAmount = some 1000000) := by
  have hnp : ¬ price ≤ 0 := not_le.mpr hp
  have hnb : ¬ bq.outAmount ≤ 0 := not_le.mpr hbo
  have hns : ¬ sq.outAmount ≤ 0 := not_le.mpr hso
  simp only [isTokenTradeable, hbq, hsq, if_neg hnp, if_neg hnb, if_neg hns]
  by_cases hs : (0.10 : ℚ) < 1 - (sq.outAmount : ℚ) / 1000000
  · rw [if_pos hs]
    refine ⟨rfl, ?_, fun _ => rfl, ?_⟩
    · constructor
      · intro h; exact absurd h (by simp)
      · intro hle; exact absurd hs (not_lt.mpr hle)
    · intro h; exact absurd h (by simp)
  · rw [if_neg hs]
    push_neg at hs
    exact ⟨rfl, by simp [hs], fun hc => absurd hs hc, fun _ => ⟨rfl, rfl⟩⟩

/-- Witness for C5: a forward quote of 500 token units for 1 USDC and a
reverse quote of 950000 USDC base units for those 500 units gives a 5%
round-trip loss, so the token is tradeable. -/
theorem C5_tradeability_round_trip_witness :
    (isTokenTradeable
        (fun f _ amt =>
          if f = usdcAddress then some { outAmount := 500 }
          else if amt = 500 then some { outAmount := 950000 } else none)
        (some 2) "TOK").tradeable = true ↔
      1 - (((950000 : ℤ) : ℚ)) / 1000000 ≤ 0.10 :=
  (C5_tradeability_round_trip
      (fun f _ amt =>
        if f = usdcAddress then some { outAmount := 500 }
        else if amt = 500 then some { outAmount := 950000 } else none)
      2 "TOK" { outAmount := 500 } { outAmount := 950000 }
      (by norm_num) (by simp) (by norm_num) (by simp [usdcAddress]) (by norm_num)).2.1

end SoulBot
